import Mathlib

/-
Verification development for the `passport-google-token` strategy
(src/index.js).  The JavaScript source is shallowly embedded: JavaScript
runtime values become the inductive type `Js`, property access and the
strict-mode TypeError on `undefined`/`null` receivers become `getProp`,
`JSON.parse` is modelled by `jsonParse` (the JSON fragment exercised here:
objects, arrays, strings with the common escapes, integer numbers,
booleans, null), and the callback-passing style of the source becomes
continuation passing, with each callback's dynamic receiver (`this`)
threaded explicitly as an `Option Strategy` because the source file is
strict-mode code (`'use strict'`, and class bodies are strict), where a
plain call `done(err)` leaves `this` undefined inside the callee.
-/

namespace GT

/-- JavaScript runtime values, as far as the strategy manipulates them:
the primitives, arrays, plain objects (association lists of own
properties), and the three kinds of error objects that appear in
src/index.js — `TypeError` (thrown by property access on `undefined` or
`null`), `SyntaxError` (thrown by `JSON.parse`), and the
`InternalOAuthError` wrapper from `passport-oauth`. -/
inductive Js where
  | undefined
  | null
  | bool (b : Bool)
  | num (n : Int)
  | str (s : String)
  | arr (elems : List Js)
  | obj (fields : List (String × Js))
  | typeError (message : String)
  | syntaxError (message : String)
  | internalOAuthError (message : String) (oauthError : Js)

/-- JavaScript truthiness: `undefined`, `null`, `false`, `0` and `""` are
falsy; every object (including error objects and arrays) is truthy. -/
def truthy : Js → Bool
  | .undefined => false
  | .null => false
  | .bool b => b
  | .num n => n != 0
  | .str s => s != ""
  | _ => true

/-- Look an own property up in an object's field list (first match wins,
as in an object literal read). -/
def lookupField : List (String × Js) → String → Js
  | [], _ => .undefined
  | (k, v) :: rest, key => if k = key then v else lookupField rest key

/-- Property access `v.key`.  On `undefined` and `null` receivers it
throws a `TypeError` (strict or sloppy mode alike); on other primitives
it yields `undefined` (none of the accessed names exists on their
wrappers); on objects it reads the own property. -/
def getProp (v : Js) (key : String) : Except Js Js :=
  match v with
  | .undefined => .error (.typeError ("cannot read properties of undefined (reading " ++ key ++ ")"))
  | .null => .error (.typeError ("cannot read properties of null (reading " ++ key ++ ")"))
  | .obj fields => .ok (lookupField fields key)
  | _ => .ok .undefined

/-- The value of `a && b`: `a` when `a` is falsy (short-circuiting past
`b`), otherwise the value of `b` (which may itself throw). -/
def jsAnd (a : Js) (b : Except Js Js) : Except Js Js :=
  if truthy a then b else .ok a

/-- The value of `a || b`: `a` when `a` is truthy, otherwise `b`. -/
def jsOr (a b : Js) : Js :=
  if truthy a then a else b

/-- Decide whether a character is JSON whitespace. -/
def isJsonWs (c : Char) : Bool :=
  c = ' ' || c = '\t' || c = '\n' || c = '\r'

/-- Drop leading JSON whitespace. -/
def skipWs : List Char → List Char
  | [] => []
  | c :: cs => if isJsonWs c then skipWs cs else c :: cs

/-- Consume the body of a JSON string literal after its opening quote,
handling the common escapes, and return the string together with the
characters after the closing quote. -/
def parseStringRest : List Char → String → Except String (String × List Char)
  | [], _ => .error "unterminated string in JSON"
  | '"' :: cs, acc => .ok (acc, cs)
  | '\\' :: c :: cs, acc =>
    if c = '"' then parseStringRest cs (acc.push '"')
    else if c = '\\' then parseStringRest cs (acc.push '\\')
    else if c = '/' then parseStringRest cs (acc.push '/')
    else if c = 'n' then parseStringRest cs (acc.push '\n')
    else if c = 't' then parseStringRest cs (acc.push '\t')
    else if c = 'r' then parseStringRest cs (acc.push '\r')
    else if c = 'b' then parseStringRest cs (acc.push (Char.ofNat 8))
    else if c = 'f' then parseStringRest cs (acc.push (Char.ofNat 12))
    else .error "unsupported escape in JSON string"
  | c :: cs, acc => parseStringRest cs (acc.push c)

/-- Split a leading run of decimal digits off a character list. -/
def takeDigits : List Char → List Char × List Char
  | [] => ([], [])
  | c :: cs =>
    if c.isDigit then
      let (ds, rest) := takeDigits cs
      (c :: ds, rest)
    else ([], c :: cs)

/-- Numeric value of a digit run. -/
def digitsToNat (ds : List Char) : Nat :=
  ds.foldl (fun n c => 10 * n + (c.toNat - 48)) 0

mutual

/-- Parse one JSON value (fuel-indexed; the fuel bounds the number of
parser steps and is instantiated generously by `jsonParse`). -/
def parseValue : Nat → List Char → Except String (Js × List Char)
  | 0, _ => .error "JSON input too deeply nested"
  | fuel + 1, cs =>
    match skipWs cs with
    | [] => .error "unexpected end of JSON input"
    | c :: cs' =>
      if c = '"' then
        match parseStringRest cs' "" with
        | .error e => .error e
        | .ok (s, rest) => .ok (Js.str s, rest)
      else if c = 't' then
        match cs' with
        | 'r' :: 'u' :: 'e' :: rest => .ok (Js.bool true, rest)
        | _ => .error "unexpected token in JSON"
      else if c = 'f' then
        match cs' with
        | 'a' :: 'l' :: 's' :: 'e' :: rest => .ok (Js.bool false, rest)
        | _ => .error "unexpected token in JSON"
      else if c = 'n' then
        match cs' with
        | 'u' :: 'l' :: 'l' :: rest => .ok (Js.null, rest)
        | _ => .error "unexpected token in JSON"
      else if c = '-' then
        match takeDigits cs' with
        | ([], _) => .error "unexpected token in JSON"
        | (ds, rest) => .ok (Js.num (-(digitsToNat ds : Int)), rest)
      else if c.isDigit then
        match takeDigits (c :: cs') with
        | (ds, rest) => .ok (Js.num (digitsToNat ds), rest)
      else if c = Char.ofNat 91 then
        parseArrayRest fuel cs'
      else if c = Char.ofNat 123 then
        parseObjectRest fuel cs'
      else .error "unexpected token in JSON"

/-- Parse the remainder of a JSON array after its opening bracket. -/
def parseArrayRest : Nat → List Char → Except String (Js × List Char)
  | 0, _ => .error "JSON input too deeply nested"
  | fuel + 1, cs =>
    match skipWs cs with
    | c :: rest =>
      if c = Char.ofNat 93 then .ok (Js.arr [], rest)
      else
        match parseValue fuel cs with
        | .error e => .error e
        | .ok (v, rest') =>
          match parseMoreElems fuel rest' with
          | .error e => .error e
          | .ok (vs, rest'') => .ok (Js.arr (v :: vs), rest'')
    | [] => .error "unexpected end of JSON input"

/-- After one array element: either a closing bracket or a comma and
another element. -/
def parseMoreElems : Nat → List Char → Except String (List Js × List Char)
  | 0, _ => .error "JSON input too deeply nested"
  | fuel + 1, cs =>
    match skipWs cs with
    | c :: rest =>
      if c = Char.ofNat 93 then .ok ([], rest)
      else if c = ',' then
        match parseValue fuel rest with
        | .error e => .error e
        | .ok (v, rest') =>
          match parseMoreElems fuel rest' with
          | .error e => .error e
          | .ok (vs, rest'') => .ok (v :: vs, rest'')
      else .error "unexpected token in JSON"
    | [] => .error "unexpected end of JSON input"

/-- Parse the remainder of a JSON object after its opening brace. -/
def parseObjectRest : Nat → List Char → Except String (Js × List Char)
  | 0, _ => .error "JSON input too deeply nested"
  | fuel + 1, cs =>
    match skipWs cs with
    | c :: rest =>
      if c = Char.ofNat 125 then .ok (Js.obj [], rest)
      else
        match parseMember fuel (c :: rest) with
        | .error e => .error e
        | .ok (kv, rest') =>
          match parseMoreMembers fuel rest' with
          | .error e => .error e
          | .ok (kvs, rest'') => .ok (Js.obj (kv :: kvs), rest'')
    | [] => .error "unexpected end of JSON input"

/-- Parse one `"key": value` member of a JSON object. -/
def parseMember : Nat → List Char → Except String ((String × Js) × List Char)
  | 0, _ => .error "JSON input too deeply nested"
  | fuel + 1, cs =>
    match skipWs cs with
    | '"' :: rest =>
      match parseStringRest rest "" with
      | .error e => .error e
      | .ok (key, rest') =>
        match skipWs rest' with
        | ':' :: rest'' =>
          match parseValue fuel rest'' with
          | .error e => .error e
          | .ok (v, rest3) => .ok ((key, v), rest3)
        | _ => .error "expected colon in JSON object"
    | _ => .error "expected string key in JSON object"

/-- After one object member: either a closing brace or a comma and
another member. -/
def parseMoreMembers : Nat → List Char → Except String (List (String × Js) × List Char)
  | 0, _ => .error "JSON input too deeply nested"
  | fuel + 1, cs =>
    match skipWs cs with
    | c :: rest =>
      if c = Char.ofNat 125 then .ok ([], rest)
      else if c = ',' then
        match parseMember fuel rest with
        | .error e => .error e
        | .ok (kv, rest') =>
          match parseMoreMembers fuel rest' with
          | .error e => .error e
          | .ok (kvs, rest'') => .ok (kv :: kvs, rest'')
      else .error "unexpected token in JSON"
    | [] => .error "unexpected end of JSON input"

end

/-- Model of `JSON.parse` on the JSON fragment this development
evaluates concretely (objects, arrays, strings with common escapes,
integer numbers, booleans, null): parse one value and require only
whitespace to follow. -/
def jsonParse (s : String) : Except String Js :=
  match parseValue (2 * s.length + 8) s.toList with
  | .error e => .error e
  | .ok (v, rest) =>
    match skipWs rest with
    | [] => .ok v
    | _ => .error "unexpected trailing characters in JSON"

/-- The `JSON.parse` call as the strategy's try block sees it: a parsed
value or a thrown `SyntaxError`. -/
def jsonParseJs (body : String) : Except Js Js :=
  match jsonParse body with
  | .error msg => .error (.syntaxError msg)
  | .ok v => .ok v

/-- The `name: ...` sub-record of the normalized profile
(src/index.js lines 122-126). -/
structure ProfileName where
  familyName : Js
  givenName : Js
  middleName : Js

/-- A single-value wrapper record, the element shape of the normalized
profile's `emails` and `photos` arrays. -/
structure ValueWrap where
  value : Js

/-- The normalized profile constructed by `userProfile`
(src/index.js lines 119-133). -/
structure Profile where
  provider : String
  id : Js
  displayName : Js
  name : ProfileName
  gender : Js
  emails : List ValueWrap
  photos : List ValueWrap
  _json : Js
  _raw : String

/-- An inbound request, as far as `authenticate` reads it: its `body`,
`query` and `headers` properties (each `Js.undefined` when the request
object lacks that property). -/
structure Req where
  body : Js
  query : Js
  headers : Js

/-- The `_skipUserProfile` setting, discriminated the way
`loadUserProfile` (src/index.js lines 149-169) discriminates it: a
function of arity greater than one is invoked callback-style with the
access token (and answers with the `(err, skip)` pair it passes to its
callback); any other function is invoked with no arguments; a
non-function value is used directly. -/
inductive SkipConfig where
  | value (v : Js)
  | syncFn (f : Unit → Js)
  | asyncFn (f : Js → Js × Js)

/-- The strategy instance state that `authenticate` reads: the fields
the `passport-oauth` parent constructor stores from the options
(`_passReqToCallback`, `_skipUserProfile`) and the caller-supplied
verify callback.  The verify callback is modelled by the
`(err, user, info)` triple it passes to its `done` argument; its first
parameter is the request when the strategy passes one. -/
structure Strategy where
  passReqToCallback : Bool
  skipUserProfile : SkipConfig
  verify : Option Req → Js → Js → Option Profile → Js × Js × Js

/-- The three terminal signals of the host framework's strategy
contract: `success(user, info)`, `fail(info)`, `error(err)`. -/
inductive Outcome where
  | success (user : Js) (info : Js)
  | fail (info : Js)
  | error (e : Js)

/-- Per-invocation result of `authenticate`: whether the userinfo
network call was issued, and either the one terminal signal dispatched
or the exception the invocation throws instead. -/
structure AuthResult where
  networkCalled : Bool
  outcome : Except Js Outcome

/-- Reading a member off a callback's dynamic receiver.  The source file
is strict-mode code, so a callback invoked as a plain call (`done(err)`)
runs with `this` undefined and any `this.member` read throws a
`TypeError`; a bound receiver yields the strategy. -/
def requireThis (thisv : Option Strategy) (member : String) : Except Js Strategy :=
  match thisv with
  | none => .error (.typeError ("cannot read properties of undefined (reading " ++ member ++ ")"))
  | some s => .ok s

/-- The `verified` completion callback (src/index.js lines 76-86),
with its dynamic receiver explicit: error present signals error, user
falsy signals failure with `info`, otherwise success with
`(user, info)` — each branch reading the corresponding method off
`this` first. -/
def verified (thisv : Option Strategy) (err user info : Js) : Except Js Outcome := do
  if truthy err then
    let _ ← requireThis thisv "error"
    return Outcome.error err
  else if ! truthy user then
    let _ ← requireThis thisv "fail"
    return Outcome.fail info
  else
    let _ ← requireThis thisv "success"
    return Outcome.success user info

/-- The anonymous profile-loaded callback passed to `loadUserProfile`
by `authenticate` (src/index.js lines 71-93), with its dynamic receiver
explicit: on error it reads `this.fail` and signals failure with the
error; otherwise it reads `this._passReqToCallback`, invokes the verify
callback with or without the request, and the verify callback completes
through `verified` — which, being invoked as a plain call `done(...)`,
runs with `this` undefined. -/
def profileLoadedCallback (thisv : Option Strategy) (req : Req)
    (accessToken refreshToken : Js) (err : Js) (profile : Option Profile) :
    Except Js Outcome := do
  if truthy err then
    let _ ← requireThis thisv "fail"
    return Outcome.fail err
  else
    let s ← requireThis thisv "_passReqToCallback"
    let (verr, user, info) :=
      if s.passReqToCallback then s.verify (some req) accessToken refreshToken profile
      else s.verify none accessToken refreshToken profile
    verified none verr user info

/-- Construction of the normalized profile inside `userProfile`'s try
block (src/index.js lines 119-133): one property read per promoted
field, in source order, each of which throws when the parsed value is
`null`. -/
def mkProfile (json : Js) (body : String) : Except Js Profile := do
  let id ← getProp json "id"
  let displayName ← getProp json "name"
  let familyName ← getProp json "family_name"
  let givenName ← getProp json "given_name"
  let middleName ← getProp json "middle_name"
  let gender ← getProp json "gender"
  let email ← getProp json "email"
  let picture ← getProp json "picture"
  return { provider := "google"
           id := id
           displayName := displayName
           name := { familyName := familyName, givenName := givenName, middleName := middleName }
           gender := gender
           emails := [⟨email⟩]
           photos := [⟨picture⟩]
           _json := json
           _raw := body }

/-- `userProfile` (src/index.js lines 110-139).  The userinfo GET is an
external collaborator, so its result is a parameter: a provider error or
a response body.  On error, `done` receives an `InternalOAuthError`
wrapping the cause under the fixed message.  On a body, the try block
parses, constructs the profile and calls `done(null, profile)`; any
exception thrown inside the try block — including one thrown by `done`
itself — is caught and routed to `done(e)`, whose own exceptions then
propagate. -/
def userProfile {α : Type} (fetch : Except Js String)
    (done : Js → Option Profile → Except Js α) : Except Js α :=
  match fetch with
  | .error err => done (.internalOAuthError "failed to fetch user profile" err) none
  | .ok body =>
    match (do
      let json ← jsonParseJs body
      let profile ← mkProfile json body
      done Js.null (some profile) : Except Js α) with
    | .ok a => .ok a
    | .error e => done e none

/-- `loadUserProfile` (src/index.js lines 149-169): dispatch on the
skip setting; an error from the callback-style predicate goes to `done`,
a truthy skip completes with `done(null)` (no profile, no network
call), otherwise delegate to `userProfile`.  The boolean records
whether the userinfo request was issued. -/
def loadUserProfile {α : Type} (s : Strategy) (fetch : Except Js String) (accessToken : Js)
    (done : Js → Option Profile → Except Js α) : Bool × Except Js α :=
  match s.skipUserProfile with
  | .asyncFn f =>
    let (err, sk) := f accessToken
    if truthy err then (false, done err none)
    else if ! truthy sk then (true, userProfile fetch done)
    else (false, done Js.null none)
  | .syncFn f =>
    if ! truthy (f ()) then (true, userProfile fetch done)
    else (false, done Js.null none)
  | .value v =>
    if ! truthy v then (true, userProfile fetch done)
    else (false, done Js.null none)

/-- Token extraction (src/index.js lines 68-69):
`req.body.key or req.query.key or req.headers.key`, with JavaScript
short-circuit disjunction, each read throwing when its container is
undefined. -/
def extractToken (req : Req) (key : String) : Except Js Js := do
  let b ← getProp req.body key
  if truthy b then return b
  else
    let q ← getProp req.query key
    if truthy q then return q
    else getProp req.headers key

/-- `authenticate` (src/index.js lines 56-94): fail on an `error` query
parameter (the query read guarded by `req.query and ...`), fail on a
missing body, extract both tokens, then load the profile, handing the
outcome to the profile-loaded callback — which the source invokes as a
plain call, so its receiver is `none`. -/
def authenticate (s : Strategy) (fetch : Except Js String) (req : Req) : AuthResult :=
  match jsAnd req.query (getProp req.query "error") with
  | .error e => ⟨false, .error e⟩
  | .ok errParam =>
    if truthy errParam then ⟨false, .ok (.fail .undefined)⟩
    else if ! truthy req.body then ⟨false, .ok (.fail .undefined)⟩
    else
      match extractToken req "access_token" with
      | .error e => ⟨false, .error e⟩
      | .ok accessToken =>
        match extractToken req "refresh_token" with
        | .error e => ⟨false, .error e⟩
        | .ok refreshToken =>
          let (nc, oc) := loadUserProfile s fetch accessToken
            (profileLoadedCallback none req accessToken refreshToken)
          ⟨nc, oc⟩

/-- Field update for strict-mode property assignment. -/
def setField : List (String × Js) → String → Js → List (String × Js)
  | [], key, val => [(key, val)]
  | (k, v) :: rest, key, val =>
    if k = key then (k, val) :: rest else (k, v) :: setField rest key val

/-- Strict-mode property assignment `v.key = val`: updates an object;
throws on `undefined`, `null` and other primitive receivers. -/
def setProp (v : Js) (key : String) (val : Js) : Except Js Js :=
  match v with
  | .obj fields => .ok (.obj (setField fields key val))
  | .undefined => .error (.typeError ("cannot set properties of undefined (setting " ++ key ++ ")"))
  | .null => .error (.typeError ("cannot set properties of null (setting " ++ key ++ ")"))
  | _ => .error (.typeError ("cannot create property " ++ key ++ " on a primitive"))

/-- What the constructor stores: the defaulted options object and the
fixed strategy name. -/
structure ConstructedStrategy where
  options : Js
  name : String

/-- The constructor (src/index.js lines 40-49) up to the delegation to
the parent class: default the local options with `options or` an empty
object, then default `authorizationURL` and `tokenURL` — both reads
performed on the original `options` argument, not on the fallback. -/
def strategyConstruct (options : Js) : Except Js ConstructedStrategy := do
  let opts0 := jsOr options (Js.obj [])
  let au ← getProp options "authorizationURL"
  let opts1 ← setProp opts0 "authorizationURL"
    (jsOr au (.str "https://accounts.google.com/o/oauth2/auth"))
  let tu ← getProp options "tokenURL"
  let opts2 ← setProp opts1 "tokenURL"
    (jsOr tu (.str "https://accounts.google.com/o/oauth2/token"))
  return ⟨opts2, "google-token"⟩

/-- Observing continuation: records the `(err, profile)` pair a
profile-producing operation hands to its `done` callback. -/
def observeDone : Js → Option Profile → Except Js (Js × Option Profile) :=
  fun e p => .ok (e, p)

/-- The provider response body from the spec's worked example. -/
def adaBody : String :=
  "\x7b\"id\":\"42\",\"name\":\"Ada Lovelace\",\"family_name\":\"Lovelace\",\"given_name\":\"Ada\",\"email\":\"ada@example.com\",\"picture\":\"http://x/y.png\"\x7d"

/-- The parse of `adaBody`. -/
def adaJson : Js :=
  Js.obj [("id", Js.str "42"), ("name", Js.str "Ada Lovelace"),
          ("family_name", Js.str "Lovelace"), ("given_name", Js.str "Ada"),
          ("email", Js.str "ada@example.com"), ("picture", Js.str "http://x/y.png")]

/-- The normalized profile the spec's worked example expects. -/
def adaProfile : Profile :=
  { provider := "google"
    id := Js.str "42"
    displayName := Js.str "Ada Lovelace"
    name := { familyName := Js.str "Lovelace", givenName := Js.str "Ada", middleName := Js.undefined }
    gender := Js.undefined
    emails := [⟨Js.str "ada@example.com"⟩]
    photos := [⟨Js.str "http://x/y.png"⟩]
    _json := adaJson
    _raw := adaBody }

/-- A concrete strategy: no request passing, profile fetch not skipped,
and a verify callback that accepts every attempt with the user
`obj [(id, 1)]` — that is, one that calls `done(null, user)`. -/
def sBase : Strategy :=
  { passReqToCallback := false
    skipUserProfile := .value (.bool false)
    verify := fun _ _ _ _ => (Js.null, Js.obj [("id", Js.num 1)], Js.undefined) }

/-- A concrete request carrying an access token in its body. -/
def reqBase : Req :=
  { body := Js.obj [("access_token", Js.str "tok")]
    query := Js.obj []
    headers := Js.obj [] }

/-- The normalized profile of an empty provider object. -/
def emptyJsonProfile : Profile :=
  { provider := "google"
    id := Js.undefined
    displayName := Js.undefined
    name := { familyName := Js.undefined, givenName := Js.undefined, middleName := Js.undefined }
    gender := Js.undefined
    emails := [⟨Js.undefined⟩]
    photos := [⟨Js.undefined⟩]
    _json := Js.obj []
    _raw := "\x7b\x7d" }

set_option maxRecDepth 400000

/-- Bind of a successful `Except` computation. -/
theorem exceptBindOk {α β : Type} (a : α) (f : α → Except Js β) :
    (Except.ok a >>= f) = f a := rfl

/-- Bind of a failed `Except` computation. -/
theorem exceptBindError {α β : Type} (e : Js) (f : α → Except Js β) :
    ((Except.error e : Except Js α) >>= f) = Except.error e := rfl

/-- C1: the spec claims that when profile acquisition completes with an
error, `authenticate` signals the error outcome (distinct from
failure), passing the error through.  The code does neither: the
profile-loaded callback is a strict-mode `function` invoked as a plain
call, so `this` is undefined inside it and the first statement of its
error branch — `this.fail(err)` at src/index.js line 73, which is
itself the failure signal, not the error signal — throws a TypeError.
Evaluated on a provider transport error and on a non-JSON response
body, the invocation throws instead of signalling any outcome; the
third conjunct shows that even with a bound receiver the branch would
dispatch `fail`, not `error`. -/
theorem c1_profile_error_throws_not_error_outcome :
    authenticate sBase (.error (.str "econnrefused")) reqBase =
      ⟨true, .error (.typeError "cannot read properties of undefined (reading fail)")⟩
    ∧ authenticate sBase (.ok "not-json") reqBase =
      ⟨true, .error (.typeError "cannot read properties of undefined (reading fail)")⟩
    ∧ profileLoadedCallback (some sBase) reqBase (Js.str "tok") Js.undefined
        (Js.internalOAuthError "failed to fetch user profile" (Js.str "econnrefused")) none =
      .ok (Outcome.fail (Js.internalOAuthError "failed to fetch user profile" (Js.str "econnrefused"))) :=
  ⟨rfl, rfl, rfl⟩

/-- C2: for the spec's worked-example response body, `userProfile`
hands its callback the normalized profile with exactly the claimed
fields. -/
theorem c2_normalized_profile_of_ada_body :
    userProfile (.ok adaBody) observeDone = .ok (Js.null, some adaProfile)
    ∧ jsonParse adaBody = .ok adaJson
    ∧ adaProfile.provider = "google"
    ∧ adaProfile.id = Js.str "42"
    ∧ adaProfile.displayName = Js.str "Ada Lovelace"
    ∧ adaProfile.name.familyName = Js.str "Lovelace"
    ∧ adaProfile.name.givenName = Js.str "Ada"
    ∧ adaProfile.emails = [⟨Js.str "ada@example.com"⟩]
    ∧ adaProfile.photos = [⟨Js.str "http://x/y.png"⟩] :=
  ⟨rfl, rfl, rfl, rfl, rfl, rfl, rfl, rfl, rfl⟩

/-- C4: the spec claims that with an always-true skip configuration (in
any of its three forms) no network call is made and the verification
callback receives an absent profile.  The first half holds — the
userinfo request is not issued — but the verification callback is never
invoked: `loadUserProfile` completes with `done(null)`, and the
profile-loaded callback, running with `this` undefined, throws a
TypeError at its read of `this._passReqToCallback`
(src/index.js line 88) before reaching the verify callback. -/
theorem c4_skip_true_throws_before_verify :
    authenticate { sBase with skipUserProfile := .value (.bool true) } (.error .null) reqBase =
      ⟨false, .error (.typeError "cannot read properties of undefined (reading _passReqToCallback)")⟩
    ∧ authenticate { sBase with skipUserProfile := .syncFn (fun _ => Js.bool true) } (.error .null) reqBase =
      ⟨false, .error (.typeError "cannot read properties of undefined (reading _passReqToCallback)")⟩
    ∧ authenticate { sBase with skipUserProfile := .asyncFn (fun _ => (Js.null, Js.bool true)) } (.error .null) reqBase =
      ⟨false, .error (.typeError "cannot read properties of undefined (reading _passReqToCallback)")⟩ :=
  ⟨rfl, rfl, rfl⟩

/-- C5: the spec claims the `done(error, user, info)` completion of the
verification callback is mapped to the error, failure or success
signal.  In the code this mapping is unreachable: on a successful
profile fetch with an accepting verify callback, the run throws a
TypeError before the verify callback is invoked (first conjunct), and
`verified` itself, invoked as a plain call with `this` undefined,
throws on each of its three branches when reading `this.error`,
`this.fail` or `this.success` (next three conjuncts).  The last
conjunct records the mapping `verified` would perform with a bound
receiver, which is what the claim describes. -/
theorem c5_verified_mapping_unreachable :
    authenticate sBase (.ok adaBody) reqBase =
      ⟨true, .error (.typeError "cannot read properties of undefined (reading fail)")⟩
    ∧ verified none (Js.str "boom") Js.undefined Js.undefined =
      .error (.typeError "cannot read properties of undefined (reading error)")
    ∧ verified none Js.null (Js.bool false) (Js.obj [("message", Js.str "denied")]) =
      .error (.typeError "cannot read properties of undefined (reading fail)")
    ∧ verified none Js.null (Js.obj [("id", Js.num 1)]) Js.undefined =
      .error (.typeError "cannot read properties of undefined (reading success)")
    ∧ verified (some sBase) Js.null (Js.obj [("id", Js.num 1)]) Js.undefined =
      .ok (.success (Js.obj [("id", Js.num 1)]) Js.undefined) :=
  ⟨rfl, rfl, rfl, rfl, rfl⟩

/-- C8: construction with a null or undefined options argument throws:
the constructor defaults its local copy with `options or` the empty
object but still reads `authorizationURL` off the original argument. -/
theorem c8_constructor_throws_on_missing_options :
    strategyConstruct Js.null =
      .error (.typeError "cannot read properties of null (reading authorizationURL)")
    ∧ strategyConstruct Js.undefined =
      .error (.typeError "cannot read properties of undefined (reading authorizationURL)") :=
  ⟨rfl, rfl⟩

/-- C3: whenever the three container reads succeed, token extraction
takes the body value when truthy, otherwise the query value when
truthy, otherwise the header value — the body, query string, headers
priority order, for whichever token key is being extracted. -/
theorem c3_token_extraction_precedence (req : Req) (key : String) (bv qv hv : Js)
    (hb : getProp req.body key = .ok bv)
    (hq : getProp req.query key = .ok qv)
    (hh : getProp req.headers key = .ok hv) :
    extractToken req key = .ok (if truthy bv then bv else if truthy qv then qv else hv) := by
  simp only [extractToken, hb, hq, hh, exceptBindOk]
  by_cases h1 : truthy bv
  · simp [h1, pure, Except.pure]
  · by_cases h2 : truthy qv <;> simp [h1, h2, pure, Except.pure]

/-- Witness for C3 at a request carrying the token in body, query and
headers at once: the body value wins. -/
theorem c3_witness :
    extractToken
      { body := Js.obj [("access_token", Js.str "from-body")]
        query := Js.obj [("access_token", Js.str "from-query")]
        headers := Js.obj [("access_token", Js.str "from-headers")] } "access_token" =
      .ok (Js.str "from-body") := by
  have h := c3_token_extraction_precedence
    { body := Js.obj [("access_token", Js.str "from-body")]
      query := Js.obj [("access_token", Js.str "from-query")]
      headers := Js.obj [("access_token", Js.str "from-headers")] }
    "access_token" (Js.str "from-body") (Js.str "from-query") (Js.str "from-headers")
    rfl rfl rfl
  simpa using h

/-- C6: a request whose query object carries a truthy `error` parameter
makes `authenticate` signal failure with no reason payload at once: no
token extraction, no profile load, no network call. -/
theorem c6_error_query_param_fails_without_network (s : Strategy) (fetch : Except Js String)
    (req : Req) (e : Js) (hq : truthy req.query = true)
    (he : getProp req.query "error" = .ok e) (ht : truthy e = true) :
    authenticate s fetch req = ⟨false, .ok (.fail .undefined)⟩ := by
  simp [authenticate, jsAnd, hq, he, ht]

/-- Witness for C6 at a concrete request with an `error` query
parameter. -/
theorem c6_witness :
    authenticate sBase (.error Js.null)
      { reqBase with query := Js.obj [("error", Js.str "access_denied")] } =
      ⟨false, .ok (.fail .undefined)⟩ :=
  c6_error_query_param_fails_without_network sBase (.error Js.null)
    { reqBase with query := Js.obj [("error", Js.str "access_denied")] }
    (Js.str "access_denied") rfl rfl rfl

/-- C7: `userProfile` discriminates its two error cases: a provider
transport error reaches `done` wrapped as an `InternalOAuthError`
carrying the cause under the fixed message "failed to fetch user
profile", while a parse failure of a fetched body reaches `done` as the
parse exception itself, unwrapped. -/
theorem c7_userProfile_error_kinds (cause : Js) (body msg : String)
    (hp : jsonParse body = .error msg) :
    userProfile (.error cause) observeDone =
      .ok (Js.internalOAuthError "failed to fetch user profile" cause, none)
    ∧ userProfile (.ok body) observeDone = .ok (Js.syntaxError msg, none) := by
  constructor
  · rfl
  · simp [userProfile, jsonParseJs, hp, observeDone, exceptBindError]

/-- Witness for C7 at a concrete transport error and a concrete
non-JSON body. -/
theorem c7_witness :
    userProfile (.error (Js.str "boom")) observeDone =
      .ok (Js.internalOAuthError "failed to fetch user profile" (Js.str "boom"), none)
    ∧ userProfile (.ok "not-json") observeDone =
      .ok (Js.syntaxError "unexpected token in JSON", none) :=
  c7_userProfile_error_kinds (Js.str "boom") "not-json" "unexpected token in JSON" rfl

/-- C9: when the parsed body is present but its `access_token` is
falsy and the request has no query object, `authenticate` throws a
TypeError from the unguarded `req.query.access_token` read instead of
signalling an outcome; the guard on `req.query` protects only the
error-parameter check. -/
theorem c9_missing_query_object_throws (s : Strategy) (fetch : Except Js String)
    (req : Req) (bv : Js) (hq : req.query = Js.undefined) (hb : truthy req.body = true)
    (hbv : getProp req.body "access_token" = .ok bv) (hf : truthy bv = false) :
    authenticate s fetch req =
      ⟨false, .error (.typeError "cannot read properties of undefined (reading access_token)")⟩ := by
  have hu : truthy Js.undefined = false := rfl
  have hgq : getProp Js.undefined "access_token" =
      Except.error (Js.typeError "cannot read properties of undefined (reading access_token)") := rfl
  simp [authenticate, jsAnd, extractToken, hq, hu, hb, hbv, hf, hgq,
    exceptBindOk, exceptBindError]

/-- Witness for C9 at a concrete request with a body, no truthy body
token and no query object. -/
theorem c9_witness :
    authenticate sBase (.error Js.null)
      { body := Js.obj [], query := Js.undefined, headers := Js.obj [] } =
      ⟨false, .error (.typeError "cannot read properties of undefined (reading access_token)")⟩ :=
  c9_missing_query_object_throws sBase (.error Js.null)
    { body := Js.obj [], query := Js.undefined, headers := Js.obj [] }
    Js.undefined rfl rfl rfl rfl

/-- C10: every normalized profile `mkProfile` constructs has singleton
`emails` and `photos` arrays, each wrapping the corresponding property
read of the parsed response — so a provider object lacking the `email`
or `picture` key yields a one-element array around an undefined value,
never an empty array. -/
theorem c10_emails_photos_always_singleton (json : Js) (body : String) (p : Profile)
    (h : mkProfile json body = .ok p) :
    p.emails.length = 1 ∧ p.photos.length = 1
    ∧ ∃ ev pv, getProp json "email" = .ok ev ∧ getProp json "picture" = .ok pv
        ∧ p.emails = [⟨ev⟩] ∧ p.photos = [⟨pv⟩] := by
  cases json <;>
    simp only [mkProfile, getProp, exceptBindOk, exceptBindError] at h <;>
    cases h <;> simp [getProp]

/-- Witness for C10 at the empty provider object: both arrays are
singletons around the undefined value. -/
theorem c10_witness :
    emptyJsonProfile.emails.length = 1 ∧ emptyJsonProfile.photos.length = 1
    ∧ ∃ ev pv, getProp (Js.obj []) "email" = .ok ev ∧ getProp (Js.obj []) "picture" = .ok pv
        ∧ emptyJsonProfile.emails = [⟨ev⟩] ∧ emptyJsonProfile.photos = [⟨pv⟩] :=
  c10_emails_photos_always_singleton (Js.obj []) "\x7b\x7d" emptyJsonProfile rfl

end GT

